import Mathlib

/-!
A shallow embedding of `src/app.py`, a single-file Streamlit chat assistant
that tailors text-generation requests to a selected social-media platform,
keeps the conversation history and ratings in the framework-managed session
state, and exposes a reset action.

The external text-generation call (the LangChain chain built from the prompt
template, the `ChatGroq` model and `StrOutputParser`) is modelled as an
oracle of type `GenService`: given the model configuration and the `invoke`
arguments it either returns completion text or fails with the message
`str(e)` of the raised exception.  Everything else is translated directly
from the source.
-/

namespace App

/-- A per-platform generation profile: one value of `PLATFORM_CONFIG`
(src/app.py lines 13-19). -/
structure PlatformRules where
  max_length : Nat
  tone : String
deriving DecidableEq

/-- The fixed platform table `PLATFORM_CONFIG` (src/app.py lines 13-19), as
an association list in the dict insertion order.  `List.lookup` models the
subscript `PLATFORM_CONFIG[p]`, with `none` standing for the `KeyError`
raised on a missing key. -/
def PLATFORM_CONFIG : List (String × PlatformRules) :=
  [("Twitter/X", ⟨280, "concise"⟩),
   ("Facebook", ⟨800, "friendly"⟩),
   ("LinkedIn", ⟨1200, "professional"⟩),
   ("Instagram", ⟨300, "creative"⟩),
   ("General", ⟨500, "neutral"⟩)]

/-- The platform names offered by the sidebar selectbox:
`list(PLATFORM_CONFIG.keys())` (src/app.py line 83). -/
def platformNames : List String := PLATFORM_CONFIG.map Prod.fst

/-- Configuration of the outbound `ChatGroq` call (src/app.py lines 45-50).
`api_key` is the value of `os.getenv("GROQ_API_KEY")` (absent key = `none`);
the temperature is an exact rational, since the source only ever passes the
literal `0.7` along. -/
structure GroqConfig where
  api_key : Option String
  model_name : String
  temperature : ℚ
  max_tokens : Nat
deriving DecidableEq

/-- The dictionary passed to `chain.invoke` (src/app.py lines 55-59). -/
structure ChainInput where
  input : String
  tone : String
  max_length : Nat
deriving DecidableEq

/-- An external text-generation call: from the model configuration and the
invoke arguments, either the completion text or the message `str(e)` of the
exception the pipeline raised (network, auth, quota, malformed response). -/
abbrev GenService : Type := GroqConfig → ChainInput → Except String String

/-- The `ChatGroq` model construction (src/app.py lines 45-50):
`ChatGroq(api_key=os.getenv("GROQ_API_KEY"), model_name="llama-3.3-70b-specdec",
temperature=0.7, max_tokens=min(platform_rules['max_length'], 1024))`. -/
def groqModel (api_key : Option String) (platform_rules : PlatformRules) : GroqConfig :=
  { api_key := api_key
    model_name := "llama-3.3-70b-specdec"
    temperature := 7/10
    max_tokens := min platform_rules.max_length 1024 }

/-- The string `str(KeyError(key))` for a key containing no quote or escape character:
Python renders the repr of the key, the key wrapped in single quotes
(`Char.ofNat 39`). -/
def pyKeyErrorStr (key : String) : String :=
  String.singleton (Char.ofNat 39) ++ key ++ String.singleton (Char.ofNat 39)

/-- The function `generate_ai_response` (src/app.py lines 29-63).  Inside the `try` block
the platform is looked up in `PLATFORM_CONFIG` (a missing key raises
`KeyError`), the Groq model is built, and the chain is invoked on the
input/tone/max_length dictionary; `svc` stands for the external call.  Any
exception is caught by the `except Exception` handler and rendered as
`f"Error generating response: {str(e)}"`; on success the trimmed completion
is returned (`response.strip()`). -/
def generate_ai_response (api_key : Option String) (svc : GenService)
    (user_prompt : String) (platform : String) : String :=
  match List.lookup platform PLATFORM_CONFIG with
  | none => "Error generating response: " ++ pyKeyErrorStr platform
  | some platform_rules =>
    match svc (groqModel api_key platform_rules)
        ⟨user_prompt, platform_rules.tone, platform_rules.max_length⟩ with
    | Except.ok response => response.trim
    | Except.error e => "Error generating response: " ++ e

/-- A chat message record as built at src/app.py lines 109-114 (role "user")
and lines 127-132 (role "assistant"). -/
structure Message where
  role : String
  content : String
  platform : String
  time : String
deriving DecidableEq

/-- The rating options offered by the feedback radio widget
(src/app.py line 144). -/
def ratingOptions : List Int := [1, 2, 3, 4, 5]

/-- Rejection of a rating value.  The source rejects an invalid value
silently — the radio widget cannot produce a value outside its option list,
and a falsy selection fails the `if selected_rating:` test — which we reify
as the `InvalidRating` failure of the error taxonomy. -/
inductive RatingError where
  | InvalidRating
deriving DecidableEq

/-- One rating submission (src/app.py lines 144-147): the radio widget
offers only the options `[1, 2, 3, 4, 5]` (any other value cannot be
selected), and the handler appends the selection only when it is truthy
(`if selected_rating:`, so `0` would not be appended).  A value that cannot
be accepted is rejected and the ratings list is left untouched. -/
def append_rating (ratings : List Int) (v : Int) : Except RatingError (List Int) :=
  if v ∈ ratingOptions then
    if v ≠ 0 then Except.ok (ratings ++ [v])
    else Except.error RatingError.InvalidRating
  else Except.error RatingError.InvalidRating

/-- The ratings list after the feedback block of a submission run
(src/app.py lines 144-147): `rating` is the radio selection present at the
end of the run (`none` when nothing is selected); a rejected value leaves
the list unchanged. -/
def applyRating (ratings : List Int) : Option Int → List Int
  | none => ratings
  | some v =>
    match append_rating ratings v with
    | Except.ok rs => rs
    | Except.error _ => ratings

/-- The framework-managed session state (src/app.py lines 22-27). -/
structure SessionState where
  messages : List Message
  selected_platform : String
  ratings : List Int
deriving DecidableEq

/-- The initial session state (src/app.py lines 22-27): empty history,
platform "General", no ratings. -/
def initState : SessionState :=
  { messages := [], selected_platform := "General", ratings := [] }

/-- Read-only view of the conversation used for rendering and analytics:
the message sequence and the rating sequence. -/
def snapshot (st : SessionState) : List Message × List Int :=
  (st.messages, st.ratings)

/-- One user interaction handled by `main` (src/app.py lines 75-154). -/
inductive Event where
  /-- choosing a platform in the sidebar selectbox (src/app.py lines 81-86);
  the widget offers only `platformNames` -/
  | selectPlatform (p : String)
  /-- a chat-input run (src/app.py lines 107-147): the submitted text (the
  empty string when the walrus test is falsy and nothing is handled), the
  two timestamps, and the radio selection present at the end of the run -/
  | submit (prompt t1 t2 : String) (rating : Option Int)
  /-- clicking the reset button (src/app.py lines 150-154), offered only
  when the message list is nonempty -/
  | reset
deriving DecidableEq

/-- One script run of `main` (src/app.py lines 75-154) acting on the session
state.  A handled submission appends the user message, calls
`generate_ai_response`, appends the assistant message — both carrying the
currently selected platform — and then processes the feedback radio; the
reset button clears both sequences and is a no-op when not offered. -/
def step (api_key : Option String) (svc : GenService) (st : SessionState) :
    Event → SessionState
  | Event.selectPlatform p =>
    if p ∈ platformNames then { st with selected_platform := p } else st
  | Event.submit prompt t1 t2 rating =>
    if prompt = "" then st
    else
      let user_msg : Message := ⟨"user", prompt, st.selected_platform, t1⟩
      let ai_response := generate_ai_response api_key svc prompt st.selected_platform
      let ai_msg : Message := ⟨"assistant", ai_response, st.selected_platform, t2⟩
      { st with
        messages := st.messages ++ [user_msg, ai_msg]
        ratings := applyRating st.ratings rating }
  | Event.reset =>
    if st.messages = [] then st
    else { st with messages := [], ratings := [] }

/-- The session state reached from the initial state by a sequence of
interactions. -/
def run (api_key : Option String) (svc : GenService) (events : List Event) :
    SessionState :=
  events.foldl (step api_key svc) initState

/-- The average-rating metric of `display_analytics` (src/app.py
lines 69-73): when the ratings list is truthy (nonempty) the metric is
`sum(ratings)/len(ratings)` — Python true division, exact here over `ℚ` —
and otherwise the widget shows the "N/A" indicator, modelled as `none`. -/
def averageRatingMetric (ratings : List Int) : Option ℚ :=
  if ratings ≠ [] then some ((ratings.sum : ℚ) / (ratings.length : ℚ))
  else none

/-- Module-level startup (src/app.py lines 1-27): `load_dotenv()` populates
the process environment and the session state is initialized.
`os.getenv("GROQ_API_KEY")` is not read or validated here — it is read only
inside `generate_ai_response` — so startup does not depend on the
environment at all; the `getenv` argument is deliberately unused. -/
def startup (_getenv : String → Option String) : SessionState := initState

/-- The message list is a sequence of user/assistant pairs: even length,
roles alternate starting with "user". -/
def alternating : List Message → Bool
  | [] => true
  | u :: a :: rest => u.role == "user" && a.role == "assistant" && alternating rest
  | _ :: [] => false

/-- A generation service that always succeeds with the text "ok". -/
def svcOk : GenService := fun _ _ => Except.ok "ok"

/-- A generation service that always fails with an authentication error. -/
def svcFail : GenService := fun _ _ => Except.error "Invalid API Key"

/-- A sample session state with one message and one rating. -/
def stateOne : SessionState :=
  { messages := [⟨"user", "hi", "General", "00:00:00"⟩]
    selected_platform := "General"
    ratings := [5] }

/-! ## Helper lemmas -/

/-- A state property preserved by `step` holds after any `run`. -/
theorem run_inv (api_key : Option String) (svc : GenService)
    (P : SessionState → Prop) (hinit : P initState)
    (hstep : ∀ st e, P st → P (step api_key svc st e)) :
    ∀ events : List Event, P (run api_key svc events) := by
  have h : ∀ (l : List Event) (st : SessionState),
      P st → P (l.foldl (step api_key svc) st) := by
    intro l
    induction l with
    | nil => intro st hst; exact hst
    | cons e es ih => intro st hst; exact ih _ (hstep st e hst)
  intro events
  exact h events initState hinit

/-- Every step keeps the invariant "an empty message list forces an empty
rating list". -/
theorem step_keeps_empty_inv (api_key : Option String) (svc : GenService)
    (st : SessionState) (e : Event)
    (hP : st.messages = [] → st.ratings = []) :
    (step api_key svc st e).messages = [] → (step api_key svc st e).ratings = [] := by
  cases e with
  | selectPlatform p =>
    by_cases hp : p ∈ platformNames <;> simp [step, hp] <;> exact hP
  | submit prompt t1 t2 rating =>
    by_cases hs : prompt = "" <;> simp [step, hs]
    exact hP
  | reset =>
    by_cases hm : st.messages = [] <;> simp [step, hm]
    exact hP hm

/-- Along any run, an empty message list forces an empty rating list. -/
theorem run_empty_inv (api_key : Option String) (svc : GenService)
    (events : List Event) :
    (run api_key svc events).messages = [] → (run api_key svc events).ratings = [] :=
  run_inv api_key svc (fun st => st.messages = [] → st.ratings = [])
    (fun _ => rfl) (step_keeps_empty_inv api_key svc) events

/-- Appending a user/assistant pair preserves the alternation predicate. -/
theorem alternating_append_pair (xs : List Message) (u a : Message)
    (hxs : alternating xs = true) (hu : u.role = "user")
    (ha : a.role = "assistant") :
    alternating (xs ++ [u, a]) = true := by
  match xs with
  | [] => simp [alternating, hu, ha]
  | [x] => simp [alternating] at hxs
  | x :: y :: rest =>
    simp only [alternating, Bool.and_eq_true, beq_iff_eq] at hxs
    simp only [List.cons_append, alternating, Bool.and_eq_true, beq_iff_eq]
    exact ⟨hxs.1, alternating_append_pair rest u a hxs.2 hu ha⟩

/-- Every step keeps the message list alternating. -/
theorem step_keeps_alternating (api_key : Option String) (svc : GenService)
    (st : SessionState) (e : Event)
    (hP : alternating st.messages = true) :
    alternating (step api_key svc st e).messages = true := by
  cases e with
  | selectPlatform p =>
    by_cases hp : p ∈ platformNames <;> simp [step, hp] <;> exact hP
  | submit prompt t1 t2 rating =>
    by_cases hs : prompt = "" <;> simp [step, hs]
    · exact hP
    · exact alternating_append_pair st.messages _ _ hP rfl rfl
  | reset =>
    by_cases hm : st.messages = [] <;> simp [step, hm, alternating]

/-- Along any run, the message list alternates user/assistant pairs. -/
theorem run_alternating (api_key : Option String) (svc : GenService)
    (events : List Event) :
    alternating (run api_key svc events).messages = true :=
  run_inv api_key svc (fun st => alternating st.messages = true)
    rfl (step_keeps_alternating api_key svc) events

/-! ## Claims -/

/-- C1: for every input string and every platform name,
`generate_ai_response` returns a string and never raises: on any failure of
the pipeline (missing platform key or failing external call) it returns a
string prefixed "Error generating response: ", and on success it returns
the generated (trimmed) text. -/
theorem C1_generate_ai_response_fail_soft (api_key : Option String)
    (svc : GenService) (u p : String) :
    (∃ e, generate_ai_response api_key svc u p = "Error generating response: " ++ e) ∨
    (∃ rules r, List.lookup p PLATFORM_CONFIG = some rules ∧
      svc (groqModel api_key rules) ⟨u, rules.tone, rules.max_length⟩ = Except.ok r ∧
      generate_ai_response api_key svc u p = r.trim) := by
  unfold generate_ai_response
  cases hl : List.lookup p PLATFORM_CONFIG with
  | none => exact Or.inl ⟨pyKeyErrorStr p, rfl⟩
  | some rules =>
    cases hs : svc (groqModel api_key rules) ⟨u, rules.tone, rules.max_length⟩ with
    | ok r => exact Or.inr ⟨rules, r, rfl, hs, by simp [hs]⟩
    | error e => exact Or.inl ⟨e, by simp [hs]⟩

/-- C2: looking each of the five fixed names up in the platform table
yields exactly the documented profile, and looking any other string up
fails (`none`, the `KeyError` of the source). -/
theorem C2_platform_catalog_lookup :
    List.lookup "Twitter/X" PLATFORM_CONFIG = some ⟨280, "concise"⟩ ∧
    List.lookup "Facebook" PLATFORM_CONFIG = some ⟨800, "friendly"⟩ ∧
    List.lookup "LinkedIn" PLATFORM_CONFIG = some ⟨1200, "professional"⟩ ∧
    List.lookup "Instagram" PLATFORM_CONFIG = some ⟨300, "creative"⟩ ∧
    List.lookup "General" PLATFORM_CONFIG = some ⟨500, "neutral"⟩ ∧
    ∀ p : String, p ∉ platformNames → List.lookup p PLATFORM_CONFIG = none := by
  refine ⟨by decide, by decide, by decide, by decide, by decide, ?_⟩
  intro p hp
  simp only [platformNames, PLATFORM_CONFIG, List.map_cons, List.map_nil,
    List.mem_cons, List.not_mem_nil, or_false] at hp
  push_neg at hp
  obtain ⟨h1, h2, h3, h4, h5⟩ := hp
  have e1 : (p == "Twitter/X") = false := beq_eq_false_iff_ne.mpr h1
  have e2 : (p == "Facebook") = false := beq_eq_false_iff_ne.mpr h2
  have e3 : (p == "LinkedIn") = false := beq_eq_false_iff_ne.mpr h3
  have e4 : (p == "Instagram") = false := beq_eq_false_iff_ne.mpr h4
  have e5 : (p == "General") = false := beq_eq_false_iff_ne.mpr h5
  simp [PLATFORM_CONFIG, List.lookup, e1, e2, e3, e4, e5]

/-- C2 witness: "TikTok" is not a catalog name and its lookup fails. -/
theorem C2_platform_catalog_lookup_w :
    "TikTok" ∉ platformNames ∧ List.lookup "TikTok" PLATFORM_CONFIG = none :=
  ⟨by decide, C2_platform_catalog_lookup.2.2.2.2.2 "TikTok" (by decide)⟩

/-- C4: for every platform in the catalog the outbound call is configured
with a max-token value of min(max_length, 1024) and a temperature of 0.7,
and the service is invoked with exactly that configuration; in particular
the token ceiling is 280 for the Twitter/X profile and 1024 for the
LinkedIn profile. -/
theorem C4_generation_call_parameters (api_key : Option String)
    (svc : GenService) (u p : String) (rules : PlatformRules)
    (h : List.lookup p PLATFORM_CONFIG = some rules) :
    (groqModel api_key rules).temperature = 7/10 ∧
    (groqModel api_key rules).max_tokens = min rules.max_length 1024 ∧
    generate_ai_response api_key svc u p =
      (match svc (groqModel api_key rules) ⟨u, rules.tone, rules.max_length⟩ with
       | Except.ok r => r.trim
       | Except.error e => "Error generating response: " ++ e) ∧
    (groqModel api_key ⟨280, "concise"⟩).max_tokens = 280 ∧
    (groqModel api_key ⟨1200, "professional"⟩).max_tokens = 1024 := by
  refine ⟨rfl, rfl, ?_, by simp [groqModel], by simp [groqModel]⟩
  simp only [generate_ai_response, h]

/-- C4 witness: the Twitter/X profile is in the catalog and its call
configuration has temperature 0.7 and token ceiling min(280, 1024). -/
theorem C4_generation_call_parameters_w :
    List.lookup "Twitter/X" PLATFORM_CONFIG = some ⟨280, "concise"⟩ ∧
    (groqModel none ⟨280, "concise"⟩).temperature = 7/10 ∧
    (groqModel none ⟨280, "concise"⟩).max_tokens = min 280 1024 := by
  have h := C4_generation_call_parameters none svcOk "hi" "Twitter/X" ⟨280, "concise"⟩
    (by decide)
  exact ⟨by decide, h.1, h.2.1⟩

/-- C7: startup does not read the API key (it is identical under every
environment), and an absent key (`none`) surfaces only at generation time,
where a failing call is caught and returned as the fail-soft error
string. -/
theorem C7_missing_api_key_fail_soft (g1 g2 : String → Option String)
    (svc : GenService) (u p : String) (rules : PlatformRules) (e : String)
    (hl : List.lookup p PLATFORM_CONFIG = some rules)
    (hs : svc (groqModel none rules) ⟨u, rules.tone, rules.max_length⟩ = Except.error e) :
    startup g1 = startup g2 ∧
    generate_ai_response none svc u p = "Error generating response: " ++ e := by
  refine ⟨rfl, ?_⟩
  simp only [generate_ai_response, hl, hs]

/-- C7 witness: with the key absent and an always-failing service, startup
is unaffected and generation returns the fail-soft string. -/
theorem C7_missing_api_key_fail_soft_w :
    startup (fun _ => none) = startup (fun _ => some "k") ∧
    generate_ai_response none svcFail "hi" "General" =
      "Error generating response: " ++ "Invalid API Key" :=
  C7_missing_api_key_fail_soft (fun _ => none) (fun _ => some "k") svcFail "hi" "General"
    ⟨500, "neutral"⟩ "Invalid API Key" (by decide) rfl

/-- C9: for a platform not in the catalog, `generate_ai_response` returns
the fail-soft string built from the KeyError message — the same prefix and
shape as a service failure; indeed an always-failing service on a known
platform can produce the identical output, so an unknown platform is
indistinguishable from a generation-service failure at the public
interface. -/
theorem C9_unknown_platform_fail_soft (api_key : Option String)
    (svc : GenService) (u p : String)
    (h : List.lookup p PLATFORM_CONFIG = none) :
    generate_ai_response api_key svc u p =
      "Error generating response: " ++ pyKeyErrorStr p ∧
    ∀ (p2 : String) (rules : PlatformRules),
      List.lookup p2 PLATFORM_CONFIG = some rules →
      generate_ai_response api_key (fun _ _ => Except.error (pyKeyErrorStr p)) u p2 =
        generate_ai_response api_key svc u p := by
  have h1 : generate_ai_response api_key svc u p =
      "Error generating response: " ++ pyKeyErrorStr p := by
    simp only [generate_ai_response, h]
  refine ⟨h1, ?_⟩
  intro p2 rules h2
  rw [h1]
  simp only [generate_ai_response, h2]

/-- C9 witness: "TikTok" is not in the catalog and generation for it
returns the fail-soft KeyError string. -/
theorem C9_unknown_platform_fail_soft_w :
    List.lookup "TikTok" PLATFORM_CONFIG = none ∧
    generate_ai_response none svcOk "hi" "TikTok" =
      "Error generating response: " ++ pyKeyErrorStr "TikTok" :=
  ⟨by decide, (C9_unknown_platform_fail_soft none svcOk "hi" "TikTok" (by decide)).1⟩

/-- C3: a rating outside [1,5] is rejected as InvalidRating and, at the
session level, leaves the ratings unchanged; a rating in [1,5] is accepted,
appended, and reflected in the snapshot taken after the interaction. -/
theorem C3_append_rating_range (ratings : List Int) (v : Int) :
    (¬(1 ≤ v ∧ v ≤ 5) →
      append_rating ratings v = Except.error RatingError.InvalidRating) ∧
    ((1 ≤ v ∧ v ≤ 5) → append_rating ratings v = Except.ok (ratings ++ [v])) ∧
    (∀ (api_key : Option String) (svc : GenService) (st : SessionState)
       (prompt t1 t2 : String), prompt ≠ "" →
       (¬(1 ≤ v ∧ v ≤ 5) →
         (snapshot (step api_key svc st (Event.submit prompt t1 t2 (some v)))).2 =
           (snapshot st).2) ∧
       ((1 ≤ v ∧ v ≤ 5) →
         (snapshot (step api_key svc st (Event.submit prompt t1 t2 (some v)))).2 =
           (snapshot st).2 ++ [v])) := by
  have hmem : (1 ≤ v ∧ v ≤ 5) ↔ v ∈ ratingOptions := by
    simp only [ratingOptions, List.mem_cons, List.not_mem_nil, or_false]
    omega
  have hout : ¬(1 ≤ v ∧ v ≤ 5) → ∀ rs : List Int,
      append_rating rs v = Except.error RatingError.InvalidRating := by
    intro hv rs
    have hnm : v ∉ ratingOptions := fun hm => hv (hmem.mpr hm)
    simp [append_rating, hnm]
  have hin : (1 ≤ v ∧ v ≤ 5) → ∀ rs : List Int,
      append_rating rs v = Except.ok (rs ++ [v]) := by
    intro hv rs
    have hm : v ∈ ratingOptions := hmem.mp hv
    have hne : v ≠ 0 := by omega
    simp [append_rating, hm, hne]
  refine ⟨fun hv => hout hv ratings, fun hv => hin hv ratings, ?_⟩
  intro api_key svc st prompt t1 t2 hp
  constructor
  · intro hv
    simp [step, hp, snapshot, applyRating, hout hv]
  · intro hv
    simp [step, hp, snapshot, applyRating, hin hv]

/-- C3 witness: 6 is rejected, 3 is accepted and appears in the snapshot
after a submission carrying it. -/
theorem C3_append_rating_range_w :
    (¬(1 ≤ (6 : Int) ∧ (6 : Int) ≤ 5)) ∧
    append_rating [] 6 = Except.error RatingError.InvalidRating ∧
    (1 ≤ (3 : Int) ∧ (3 : Int) ≤ 5) ∧
    append_rating [] 3 = Except.ok ([] ++ [3]) ∧
    (snapshot (step none svcOk initState
      (Event.submit "hi" "00:00:00" "00:00:01" (some 3)))).2 =
      (snapshot initState).2 ++ [3] :=
  ⟨by decide, (C3_append_rating_range [] 6).1 (by decide), by decide,
   (C3_append_rating_range [] 3).2.1 (by decide),
   ((C3_append_rating_range [] 3).2.2 none svcOk initState "hi" "00:00:00" "00:00:01"
     (by decide)).2 (by decide)⟩

/-- C5: over a nonempty rating list the metric is the exact arithmetic mean
(for [4,5,3] it is 4) and the divisor is nonzero; the empty list yields the
"N/A" indicator (`none`) with no division performed. -/
theorem C5_average_rating_metric :
    averageRatingMetric [4, 5, 3] = some 4 ∧
    averageRatingMetric [] = none ∧
    (∀ rs : List Int, rs ≠ [] →
      averageRatingMetric rs = some ((rs.sum : ℚ) / (rs.length : ℚ)) ∧
      (rs.length : ℚ) ≠ 0) := by
  refine ⟨?_, by simp [averageRatingMetric], ?_⟩
  · simp only [averageRatingMetric, ne_eq, reduceCtorEq, not_false_eq_true, if_true,
      List.sum_cons, List.sum_nil, List.length_cons, List.length_nil]
    norm_num
  intro rs hrs
  refine ⟨by simp [averageRatingMetric, hrs], ?_⟩
  have hlen : rs.length ≠ 0 := by
    simpa [List.length_eq_zero] using hrs
  exact Nat.cast_ne_zero.mpr hlen

/-- C5 witness: at the singleton list [2] the metric is the exact mean and
the divisor is nonzero. -/
theorem C5_average_rating_metric_w :
    averageRatingMetric [2] =
      some ((([2] : List Int).sum : ℚ) / (([2] : List Int).length : ℚ)) ∧
    ((([2] : List Int).length : ℚ) ≠ 0) :=
  C5_average_rating_metric.2.2 [2] (by decide)

/-- C6: after any sequence of interactions, a reset interaction leaves the
snapshot with two empty sequences; and from any state with nonempty
history, the reset handler empties both sequences. -/
theorem C6_reset_clears_conversation (api_key : Option String)
    (svc : GenService) (events : List Event) :
    snapshot (step api_key svc (run api_key svc events) Event.reset) = ([], []) ∧
    ∀ st : SessionState, st.messages ≠ [] →
      snapshot (step api_key svc st Event.reset) = ([], []) := by
  constructor
  · by_cases hm : (run api_key svc events).messages = []
    · have hr := run_empty_inv api_key svc events hm
      simp [step, hm, snapshot, hr]
    · simp [step, hm, snapshot]
  · intro st hst
    simp [step, hst, snapshot]

/-- C6 witness: resetting a state holding one message and one rating
empties both sequences. -/
theorem C6_reset_clears_conversation_w :
    stateOne.messages ≠ [] ∧
    snapshot (step none svcOk stateOne Event.reset) = ([], []) :=
  ⟨by decide, (C6_reset_clears_conversation none svcOk []).2 stateOne (by decide)⟩

/-- C8: a handled submission appends exactly the user message (content
verbatim) followed by the assistant message (content as returned by
`generate_ai_response`), both carrying the selected platform; consequently,
along any run the message list is a sequence of user/assistant pairs (even
length, roles alternating starting with "user"). -/
theorem C8_submission_appends_pair (api_key : Option String)
    (svc : GenService) :
    (∀ (st : SessionState) (prompt t1 t2 : String) (rating : Option Int),
      prompt ≠ "" →
      (step api_key svc st (Event.submit prompt t1 t2 rating)).messages =
        st.messages ++
          [⟨"user", prompt, st.selected_platform, t1⟩,
           ⟨"assistant", generate_ai_response api_key svc prompt st.selected_platform,
            st.selected_platform, t2⟩]) ∧
    ∀ events : List Event, alternating (run api_key svc events).messages = true := by
  constructor
  · intro st prompt t1 t2 rating hp
    simp [step, hp]
  · exact run_alternating api_key svc

/-- C8 witness: submitting "hello" from the initial state appends exactly
the user/assistant pair, and the empty run alternates. -/
theorem C8_submission_appends_pair_w :
    (step none svcOk initState (Event.submit "hello" "00:00:00" "00:00:01" none)).messages =
      initState.messages ++
        [⟨"user", "hello", initState.selected_platform, "00:00:00"⟩,
         ⟨"assistant", generate_ai_response none svcOk "hello" initState.selected_platform,
          initState.selected_platform, "00:00:01"⟩] ∧
    alternating (run none svcOk []).messages = true :=
  ⟨(C8_submission_appends_pair none svcOk).1 initState "hello" "00:00:00" "00:00:01" none
     (by decide),
   (C8_submission_appends_pair none svcOk).2 []⟩

/-- C10: the invariant "an empty message sequence forces an empty rating
sequence" is preserved by every session operation and holds along every
run. -/
theorem C10_empty_messages_empty_ratings (api_key : Option String)
    (svc : GenService) :
    (∀ (st : SessionState) (e : Event),
      (st.messages = [] → st.ratings = []) →
      ((step api_key svc st e).messages = [] → (step api_key svc st e).ratings = [])) ∧
    ∀ events : List Event,
      (run api_key svc events).messages = [] → (run api_key svc events).ratings = [] :=
  ⟨step_keeps_empty_inv api_key svc, run_empty_inv api_key svc⟩

/-- C10 witness: the empty run has empty messages, hence empty ratings. -/
theorem C10_empty_messages_empty_ratings_w :
    (run none svcOk []).messages = [] ∧ (run none svcOk []).ratings = [] :=
  ⟨rfl, (C10_empty_messages_empty_ratings none svcOk).2 [] rfl⟩

end App
